import Mathlib

/-!
Shallow embedding of `cloud/amazon/ec2_healthcheck.py`: the polling loop
`EC2HealthCheck.check_health`, the evaluator `EC2HealthCheck._is_instance_reachable`,
and the result-reporting tail of `main`.

Modelling conventions:
* A boto `InstanceStatus` object is a record of the three fields the module
  reads: `instance_status.status`, `state_name`, and `system_status.details`
  (the details dict is an association list; indexing a missing key raises
  `KeyError`, modelled as `Except.error`).
* The AWS query `conn.get_all_instance_status` is abstracted as a function
  from the call index (0-based) to its result; a raised provider exception is
  `Except.error`.
* `time.sleep` and every query and evaluation are recorded in an event trace,
  so counting and ordering claims can be stated about a run.
* Python `repeat` is an `Int` (it may be negative); the `while count < repeat`
  loop runs `repeat.toNat` iterations.
-/

namespace EC2HealthCheck

/-- The `instance_status` sub-object of a boto `InstanceStatus`: the module
reads only its `status` string. -/
structure InstanceStatusSummary where
  status : String
deriving Repr, DecidableEq

/-- The `system_status` sub-object: the module reads only its `details` dict.
Modelled as an association list with first-match lookup (dict semantics). -/
structure SystemStatusSummary where
  details : List (String × String)
deriving Repr, DecidableEq

/-- One status snapshot, with exactly the fields
`_is_instance_reachable` touches. -/
structure InstanceStatus where
  instance_status : InstanceStatusSummary
  state_name : String
  system_status : SystemStatusSummary
deriving Repr, DecidableEq

/-- Exceptions a run can raise: a `KeyError` from indexing the details dict,
or a provider-level failure raised by the AWS query itself. -/
inductive PyError where
  | keyError (key : String)
  | providerError (msg : String)
deriving Repr, DecidableEq

/-- Python dict indexing `d[k]` as first-match lookup in an association
list; `none` models a raised `KeyError`. -/
def dictGet (d : List (String × String)) (k : String) : Option String :=
  match d with
  | [] => none
  | (k1, v) :: rest => if k1 = k then some v else dictGet rest k

/-- `EC2HealthCheck._is_instance_reachable` (lines 112-127): empty list is
unreachable; otherwise the first snapshot must have instance status `"ok"`,
state `"running"` and details entry `reachability = "passed"`. Indexing
`details["reachability"]` raises `KeyError` when the key is absent. -/
def _is_instance_reachable : List InstanceStatus → Except PyError Bool
  | [] => Except.ok false
  | status :: _ =>
    if status.instance_status.status ≠ "ok" then Except.ok false
    else if status.state_name ≠ "running" then Except.ok false
    else
      match dictGet status.system_status.details "reachability" with
      | none => Except.error (PyError.keyError "reachability")
      | some r => if r ≠ "passed" then Except.ok false else Except.ok true

deriving instance DecidableEq for Except

/-- One observable step of a run: an AWS status query (with its result), an
evaluator call (with its result), or a `time.sleep(interval)`. -/
inductive Event where
  | query (result : Except PyError (List InstanceStatus))
  | eval (snapshot : List InstanceStatus) (result : Except PyError Bool)
  | sleep (interval : Nat)
deriving Repr, DecidableEq

/-- The `while count < repeat` loop of `check_health` (lines 100-110), with
`fuel` the number of iterations still allowed (`repeat - count`), `status` the
snapshot held from the previous query, and `idx` the index of the next query.
Each iteration evaluates the held snapshot, returns `True` if reachable, else
sleeps and queries again; exceptions from the evaluator or the query
propagate. Returns the result paired with the trace of events. -/
def check_health_loop (queries : Nat → Except PyError (List InstanceStatus))
    (interval : Nat) : Nat → List InstanceStatus → Nat →
    Except PyError Bool × List Event
  | 0, _, _ => (Except.ok false, [])
  | fuel + 1, status, idx =>
    match _is_instance_reachable status with
    | Except.error e => (Except.error e, [Event.eval status (Except.error e)])
    | Except.ok true => (Except.ok true, [Event.eval status (Except.ok true)])
    | Except.ok false =>
      match queries idx with
      | Except.error e =>
        (Except.error e,
          [Event.eval status (Except.ok false), Event.sleep interval,
            Event.query (Except.error e)])
      | Except.ok next =>
        let rest := check_health_loop queries interval fuel next (idx + 1)
        (rest.1, Event.eval status (Except.ok false) :: Event.sleep interval ::
          Event.query (Except.ok next) :: rest.2)

/-- `EC2HealthCheck.check_health` (lines 98-110), connection setup abstracted
into `queries`: one initial query, then the loop. A raised exception is the
`Except.error` result; the trace records every query, evaluation and sleep in
order. -/
def check_health (queries : Nat → Except PyError (List InstanceStatus))
    (interval : Nat) (rep : Int) : Except PyError Bool × List Event :=
  match queries 0 with
  | Except.error e => (Except.error e, [Event.query (Except.error e)])
  | Except.ok status =>
    let rest := check_health_loop queries interval rep.toNat status 1
    (rest.1, Event.query (Except.ok status) :: rest.2)

/-- Recognizer for query events. -/
def isQueryEvent : Event → Bool
  | Event.query _ => true
  | _ => false

/-- Recognizer for sleep events. -/
def isSleepEvent : Event → Bool
  | Event.sleep _ => true
  | _ => false

/-- Recognizer for evaluator-call events. -/
def isEvalEvent : Event → Bool
  | Event.eval _ _ => true
  | _ => false

/-- Number of AWS status queries recorded in a trace. -/
def countQueries (tr : List Event) : Nat := (tr.filter isQueryEvent).length

/-- Number of sleeps recorded in a trace. -/
def countSleeps (tr : List Event) : Nat := (tr.filter isSleepEvent).length

/-- Number of evaluator calls recorded in a trace. -/
def countEvals (tr : List Event) : Nat := (tr.filter isEvalEvent).length

/-- The report `main` emits: `module.exit_json(changed=..., stdout=...)` or
`module.fail_json(msg=...)`. -/
inductive ModuleReport where
  | exit_json (changed : Bool) (stdout : String)
  | fail_json (msg : String)
deriving Repr, DecidableEq

/-- The reporting tail of `main` (lines 158-167): fail when unreachable and
`fail_unreachable` is set, otherwise exit with the status message (the
source spells "rechable"). -/
def report_result (reachable : Bool) (fail_unreachable : Bool)
    (instance_id : String) : ModuleReport :=
  if !reachable && fail_unreachable then
    ModuleReport.fail_json ("The following instance isn\x27t reachable: " ++ instance_id)
  else
    ModuleReport.exit_json false
      ((if reachable then "The following instance is rechable "
        else "The following instance is unreachable ") ++ instance_id)

/-- The reachability condition of the spec, on the first snapshot of the
list: instance status check passed, state running, system reachability
passed. -/
def reachCond : List InstanceStatus → Prop
  | [] => False
  | status :: _ =>
    status.instance_status.status = "ok" ∧ status.state_name = "running" ∧
      dictGet status.system_status.details "reachability" = some "passed"

instance (l : List InstanceStatus) : Decidable (reachCond l) := by
  cases l <;> simp only [reachCond] <;> infer_instance

/-- A snapshot of an instance still starting up: state `"pending"`, status
checks not yet passed. -/
def pendingSnapshot : InstanceStatus :=
  { instance_status := { status := "initializing" }, state_name := "pending",
    system_status := { details := [("reachability", "initializing")] } }

/-- A fully healthy snapshot: instance status `"ok"`, state `"running"`,
system reachability `"passed"`. -/
def healthySnapshot : InstanceStatus :=
  { instance_status := { status := "ok" }, state_name := "running",
    system_status := { details := [("reachability", "passed")] } }

/-- An unreachable snapshot distinct from `pendingSnapshot`: state
`"stopped"`. -/
def stoppedSnapshot : InstanceStatus :=
  { instance_status := { status := "ok" }, state_name := "stopped",
    system_status := { details := [("reachability", "passed")] } }

/-- A snapshot whose first two checks pass but whose details dict has no
`reachability` entry. -/
def missingReachabilitySnapshot : InstanceStatus :=
  { instance_status := { status := "ok" }, state_name := "running",
    system_status := { details := [] } }

/-- Query sequence: first call sees the pending snapshot, every later call
sees the healthy one. -/
def pendingThenHealthy (k : Nat) : Except PyError (List InstanceStatus) :=
  if k = 0 then Except.ok [pendingSnapshot] else Except.ok [healthySnapshot]

/-- Query sequence: every call sees the healthy snapshot. -/
def healthyQueries (_ : Nat) : Except PyError (List InstanceStatus) :=
  Except.ok [healthySnapshot]

/-- Query sequence: first call sees the pending snapshot, every later call
sees the (distinct, still unreachable) stopped snapshot. -/
def pendingThenStopped (k : Nat) : Except PyError (List InstanceStatus) :=
  if k = 0 then Except.ok [pendingSnapshot] else Except.ok [stoppedSnapshot]

/-- Query sequence: every call raises a provider error. -/
def failingQueries (_ : Nat) : Except PyError (List InstanceStatus) :=
  Except.error (PyError.providerError "AuthFailure")

/-- Checks that every sleep in a trace is immediately preceded by a failed
evaluation and immediately followed by a query (so in particular a trace
never starts or ends with a sleep). -/
def sleepsWellPlaced : List Event → Bool
  | [] => true
  | Event.sleep _ :: _ => false
  | Event.eval _ (Except.ok false) :: Event.sleep _ :: Event.query r :: rest =>
      sleepsWellPlaced (Event.query r :: rest)
  | _ :: rest => sleepsWellPlaced rest

/-- Claim C1 (scenario interval=10, repeat=1, first query pending, second
healthy): the code returns `false` after two queries and one sleep of 10
seconds, because the loop evaluates only the snapshot queried before it:
the second, fully healthy snapshot is queried but never evaluated, so the
run does not return reachable=true as the spec requires. -/
theorem pending_then_healthy_repeat_one_returns_false :
    check_health pendingThenHealthy 10 1 =
      (Except.ok false,
        [Event.query (Except.ok [pendingSnapshot]),
          Event.eval [pendingSnapshot] (Except.ok false),
          Event.sleep 10,
          Event.query (Except.ok [healthySnapshot])]) ∧
    _is_instance_reachable [healthySnapshot] = Except.ok true := by
  decide

/-- Claim C2 (repeat=0): the code performs exactly one query and no sleep,
but never invokes the evaluator (the `while count < repeat` loop body never
runs), so it returns `false` even though the single queried snapshot is
fully reachable — contradicting both the spec and the module documentation
stating that repeat=0 performs one check. -/
theorem repeat_zero_never_evaluates :
    check_health healthyQueries 10 0 =
      (Except.ok false, [Event.query (Except.ok [healthySnapshot])]) ∧
    _is_instance_reachable [healthySnapshot] = Except.ok true := by
  decide

/-- Claim C3 counterexample (repeat=1, pending then stopped, both
unreachable): the run makes 2 queries but only 1 evaluation — the only
evaluation is of the pending snapshot, while the distinct stopped snapshot
is queried and returned without ever being evaluated, refuting "every
snapshot queried is evaluated before the run returns false". -/
theorem final_snapshot_not_evaluated_cex :
    check_health pendingThenStopped 5 1 =
      (Except.ok false,
        [Event.query (Except.ok [pendingSnapshot]),
          Event.eval [pendingSnapshot] (Except.ok false),
          Event.sleep 5,
          Event.query (Except.ok [stoppedSnapshot])]) ∧
    (check_health pendingThenStopped 5 1).2.filter isEvalEvent =
      [Event.eval [pendingSnapshot] (Except.ok false)] ∧
    countQueries (check_health pendingThenStopped 5 1).2 = 2 ∧
    stoppedSnapshot ≠ pendingSnapshot := by
  refine ⟨by decide, by decide, by decide, by decide⟩

/-- Claim C9: the reporting tail of `main` emits the non-error payload
`exit_json(changed := false, stdout := message)` whenever the instance is
reachable (for either value of fail_unreachable) or when it is unreachable
with fail_unreachable unset, and emits the failure payload
`fail_json(msg := message)` exactly when unreachable with fail_unreachable
set. -/
theorem report_result_cases (instance_id : String) :
    report_result false false instance_id =
      ModuleReport.exit_json false
        ("The following instance is unreachable " ++ instance_id) ∧
    report_result false true instance_id =
      ModuleReport.fail_json
        ("The following instance isn\x27t reachable: " ++ instance_id) ∧
    (∀ fu : Bool, report_result true fu instance_id =
      ModuleReport.exit_json false
        ("The following instance is rechable " ++ instance_id)) := by
  refine ⟨rfl, rfl, fun fu => ?_⟩
  cases fu <;> rfl

/-- Claim C4: the evaluator returns `ok true` exactly when a snapshot is
present with instance status `"ok"`, state `"running"` and reachability
`"passed"`; it returns `ok false` on an empty list, and on any snapshot
whose `reachability` entry is present but where any of the three conditions
deviates. -/
theorem is_instance_reachable_iff (l : List InstanceStatus) :
    (_is_instance_reachable l = Except.ok true ↔ reachCond l) ∧
    (l = [] → _is_instance_reachable l = Except.ok false) ∧
    (∀ status rest, l = status :: rest →
      (∃ v, dictGet status.system_status.details "reachability" = some v) →
      ¬ reachCond l → _is_instance_reachable l = Except.ok false) := by
  cases l with
  | nil =>
    refine ⟨by simp [_is_instance_reachable, reachCond], fun _ => rfl, ?_⟩
    intro status rest h
    exact absurd h (by simp)
  | cons status rest =>
    refine ⟨?_, by simp, ?_⟩
    · constructor
      · intro h
        by_cases h1 : status.instance_status.status = "ok"
        · by_cases h2 : status.state_name = "running"
          · rcases h3 : dictGet status.system_status.details "reachability" with _ | v
            · simp [_is_instance_reachable, h1, h2, h3] at h
            · by_cases h4 : v = "passed"
              · exact ⟨h1, h2, h4 ▸ h3⟩
              · simp [_is_instance_reachable, h1, h2, h3, h4] at h
          · simp [_is_instance_reachable, h2] at h
        · simp [_is_instance_reachable, h1] at h
      · rintro ⟨h1, h2, h3⟩
        simp [_is_instance_reachable, h1, h2, h3]
    · rintro status2 rest2 heq ⟨v, hv⟩ hnc
      injection heq with ha hb
      subst ha
      subst hb
      by_cases h1 : status.instance_status.status = "ok"
      · by_cases h2 : status.state_name = "running"
        · by_cases h4 : v = "passed"
          · exact absurd
              (show reachCond (status :: rest) from ⟨h1, h2, h4 ▸ hv⟩) hnc
          · simp [_is_instance_reachable, h1, h2, hv, h4]
        · simp [_is_instance_reachable, h1, h2]
      · simp [_is_instance_reachable, h1]

/-- Claim C4 witness: the evaluator applied to the concrete stopped snapshot,
whose reachability entry is present but whose state deviates, returns
`ok false`. -/
theorem is_instance_reachable_iff_witness :
    _is_instance_reachable [stoppedSnapshot] = Except.ok false :=
  (is_instance_reachable_iff [stoppedSnapshot]).2.2 stoppedSnapshot []
    rfl ⟨"passed", by decide⟩ (by decide)

/-- Claim C5 counterexample: on the concrete snapshot whose first two checks
pass but whose details dict has no `reachability` entry, the evaluator
raises a `KeyError` (modelled as `Except.error`) instead of returning
false — it is not exception-free on malformed snapshots. -/
theorem missing_reachability_key_raises :
    _is_instance_reachable [missingReachabilitySnapshot] =
      Except.error (PyError.keyError "reachability") ∧
    _is_instance_reachable [missingReachabilitySnapshot] ≠ Except.ok false := by
  decide

/-- Claim C5 amended: the evaluator raises an exception exactly when a
snapshot is present, its instance status is `"ok"`, its state is
`"running"`, and its details dict lacks the `reachability` entry; in every
other case (including all other malformed or deviating fields) it returns a
boolean without raising. -/
theorem is_instance_reachable_error_iff (l : List InstanceStatus) :
    (∃ e, _is_instance_reachable l = Except.error e) ↔
    (∃ status rest, l = status :: rest ∧ status.instance_status.status = "ok" ∧
      status.state_name = "running" ∧
      dictGet status.system_status.details "reachability" = none) := by
  cases l with
  | nil => simp [_is_instance_reachable]
  | cons status rest =>
    constructor
    · rintro ⟨e, he⟩
      by_cases h1 : status.instance_status.status = "ok"
      · by_cases h2 : status.state_name = "running"
        · rcases h3 : dictGet status.system_status.details "reachability" with _ | v
          · exact ⟨status, rest, rfl, h1, h2, h3⟩
          · by_cases h4 : v = "passed" <;>
              simp [_is_instance_reachable, h1, h2, h3, h4] at he
        · simp [_is_instance_reachable, h1, h2] at he
      · simp [_is_instance_reachable, h1] at he
    · rintro ⟨status2, rest2, heq, h1, h2, h3⟩
      injection heq with ha hb
      subst ha
      subst hb
      exact ⟨PyError.keyError "reachability",
        by simp [_is_instance_reachable, h1, h2, h3]⟩

/-- Loop lemma: a reachable evaluation recorded in the loop trace is always
the final event of the trace, and makes the loop return `ok true`. -/
theorem check_health_loop_eval_true_last
    (queries : Nat → Except PyError (List InstanceStatus)) (interval : Nat) :
    ∀ fuel status idx i s,
      (check_health_loop queries interval fuel status idx).2.get? i =
        some (Event.eval s (Except.ok true)) →
      i + 1 = (check_health_loop queries interval fuel status idx).2.length ∧
      (check_health_loop queries interval fuel status idx).1 = Except.ok true := by
  intro fuel
  induction fuel with
  | zero =>
    intro status idx i s h
    simp [check_health_loop] at h
  | succ fuel ih =>
    intro status idx i s h
    rcases h1 : _is_instance_reachable status with e | b
    · simp only [check_health_loop, h1] at h ⊢
      rcases i with _ | i <;> simp at h
    · cases b
      · rcases h2 : queries idx with e2 | next
        · simp only [check_health_loop, h1, h2] at h ⊢
          rcases i with _ | _ | _ | i <;> simp at h
        · simp only [check_health_loop, h1, h2] at h ⊢
          rcases i with _ | _ | _ | i
          · simp at h
          · simp at h
          · simp at h
          · simp only [List.get?_cons_succ] at h
            obtain ⟨hlen, hres⟩ := ih next (idx + 1) i s h
            refine ⟨?_, hres⟩
            simp only [List.length_cons]
            omega
      · simp only [check_health_loop, h1] at h ⊢
        rcases i with _ | i
        · simp
        · simp at h

/-- Claim C6: whenever the trace of a run records an evaluation that came
back reachable, that evaluation is the last event of the run — no query and
no sleep follows it — and the run returns `ok true` at that point. -/
theorem reachable_evaluation_is_final
    (queries : Nat → Except PyError (List InstanceStatus)) (interval : Nat)
    (rep : Int) (i : Nat) (s : List InstanceStatus)
    (h : (check_health queries interval rep).2.get? i =
      some (Event.eval s (Except.ok true))) :
    i + 1 = (check_health queries interval rep).2.length ∧
    (check_health queries interval rep).1 = Except.ok true := by
  rcases h0 : queries 0 with e | status
  · simp only [check_health, h0] at h
    rcases i with _ | i <;> simp at h
  · simp only [check_health, h0] at h ⊢
    rcases i with _ | i
    · simp at h
    · simp only [List.get?_cons_succ] at h
      obtain ⟨hlen, hres⟩ :=
        check_health_loop_eval_true_last queries interval rep.toNat status 1 i s h
      refine ⟨?_, hres⟩
      simp only [List.length_cons]
      omega

/-- Claim C6 witness: with every query healthy and repeat=5, the reachable
evaluation sits at index 1 of a 2-event trace (so 4 unused attempts remain)
and the run returns `ok true` there. -/
theorem reachable_evaluation_is_final_witness :
    1 + 1 = (check_health healthyQueries 10 5).2.length ∧
    (check_health healthyQueries 10 5).1 = Except.ok true :=
  reachable_evaluation_is_final healthyQueries 10 5 1 [healthySnapshot] (by decide)

/-- Loop lemma: a failed query recorded in the loop trace is always the
final event of the trace, and makes the loop propagate exactly that
error. -/
theorem check_health_loop_query_error_last
    (queries : Nat → Except PyError (List InstanceStatus)) (interval : Nat) :
    ∀ fuel status idx i e,
      (check_health_loop queries interval fuel status idx).2.get? i =
        some (Event.query (Except.error e)) →
      i + 1 = (check_health_loop queries interval fuel status idx).2.length ∧
      (check_health_loop queries interval fuel status idx).1 = Except.error e := by
  intro fuel
  induction fuel with
  | zero =>
    intro status idx i e h
    simp [check_health_loop] at h
  | succ fuel ih =>
    intro status idx i e h
    rcases h1 : _is_instance_reachable status with e1 | b
    · simp only [check_health_loop, h1] at h ⊢
      rcases i with _ | i <;> simp at h
    · cases b
      · rcases h2 : queries idx with e2 | next
        · simp only [check_health_loop, h1, h2] at h ⊢
          rcases i with _ | _ | _ | i
          · simp at h
          · simp at h
          · simp at h
            subst h
            simp
          · simp at h
        · simp only [check_health_loop, h1, h2] at h ⊢
          rcases i with _ | _ | _ | i
          · simp at h
          · simp at h
          · simp at h
          · simp only [List.get?_cons_succ] at h
            obtain ⟨hlen, hres⟩ := ih next (idx + 1) i e h
            refine ⟨?_, hres⟩
            simp only [List.length_cons]
            omega
      · simp only [check_health_loop, h1] at h ⊢
        rcases i with _ | i <;> simp at h

/-- Claim C7: whenever the trace of a run records a query that raised a
provider error, that query is the last event of the run — no further query
and no further sleep occurs — and the run propagates exactly that error
instead of producing a boolean outcome. -/
theorem provider_error_aborts_run
    (queries : Nat → Except PyError (List InstanceStatus)) (interval : Nat)
    (rep : Int) (i : Nat) (e : PyError)
    (h : (check_health queries interval rep).2.get? i =
      some (Event.query (Except.error e))) :
    i + 1 = (check_health queries interval rep).2.length ∧
    (check_health queries interval rep).1 = Except.error e := by
  rcases h0 : queries 0 with e0 | status
  · simp only [check_health, h0] at h ⊢
    rcases i with _ | i
    · simp at h
      subst h
      simp
    · simp at h
  · simp only [check_health, h0] at h ⊢
    rcases i with _ | i
    · simp at h
    · simp only [List.get?_cons_succ] at h
      obtain ⟨hlen, hres⟩ :=
        check_health_loop_query_error_last queries interval rep.toNat status 1 i e h
      refine ⟨?_, hres⟩
      simp only [List.length_cons]
      omega

/-- Claim C7 witness: with a query that raises a provider error on the very
first call and repeat=3, the failed query at index 0 is the only event of
the run and the error is propagated as the result. -/
theorem provider_error_aborts_run_witness :
    0 + 1 = (check_health failingQueries 10 3).2.length ∧
    (check_health failingQueries 10 3).1 =
      Except.error (PyError.providerError "AuthFailure") :=
  provider_error_aborts_run failingQueries 10 3 0
    (PyError.providerError "AuthFailure") (by decide)

@[simp] theorem countQueries_nil : countQueries [] = 0 := rfl

@[simp] theorem countSleeps_nil : countSleeps [] = 0 := rfl

@[simp] theorem countEvals_nil : countEvals [] = 0 := rfl

@[simp] theorem countQueries_cons_query (r : Except PyError (List InstanceStatus))
    (tr : List Event) : countQueries (Event.query r :: tr) = countQueries tr + 1 := by
  simp [countQueries, List.filter_cons, isQueryEvent]

@[simp] theorem countQueries_cons_eval (s : List InstanceStatus)
    (r : Except PyError Bool) (tr : List Event) :
    countQueries (Event.eval s r :: tr) = countQueries tr := by
  simp [countQueries, List.filter_cons, isQueryEvent]

@[simp] theorem countQueries_cons_sleep (n : Nat) (tr : List Event) :
    countQueries (Event.sleep n :: tr) = countQueries tr := by
  simp [countQueries, List.filter_cons, isQueryEvent]

@[simp] theorem countSleeps_cons_query (r : Except PyError (List InstanceStatus))
    (tr : List Event) : countSleeps (Event.query r :: tr) = countSleeps tr := by
  simp [countSleeps, List.filter_cons, isSleepEvent]

@[simp] theorem countSleeps_cons_eval (s : List InstanceStatus)
    (r : Except PyError Bool) (tr : List Event) :
    countSleeps (Event.eval s r :: tr) = countSleeps tr := by
  simp [countSleeps, List.filter_cons, isSleepEvent]

@[simp] theorem countSleeps_cons_sleep (n : Nat) (tr : List Event) :
    countSleeps (Event.sleep n :: tr) = countSleeps tr + 1 := by
  simp [countSleeps, List.filter_cons, isSleepEvent]

@[simp] theorem countEvals_cons_query (r : Except PyError (List InstanceStatus))
    (tr : List Event) : countEvals (Event.query r :: tr) = countEvals tr := by
  simp [countEvals, List.filter_cons, isEvalEvent]

@[simp] theorem countEvals_cons_eval (s : List InstanceStatus)
    (r : Except PyError Bool) (tr : List Event) :
    countEvals (Event.eval s r :: tr) = countEvals tr + 1 := by
  simp [countEvals, List.filter_cons, isEvalEvent]

@[simp] theorem countEvals_cons_sleep (n : Nat) (tr : List Event) :
    countEvals (Event.sleep n :: tr) = countEvals tr := by
  simp [countEvals, List.filter_cons, isEvalEvent]

/-- A query event at the head of a trace places no constraint on the sleeps
check beyond the rest of the trace. -/
theorem sleepsWellPlaced_cons_query (r : Except PyError (List InstanceStatus))
    (tr : List Event) :
    sleepsWellPlaced (Event.query r :: tr) = sleepsWellPlaced tr := rfl

/-- Loop lemma: when every query returns a snapshot that evaluates
unreachable, a loop entered holding an unreachable snapshot with `fuel`
iterations left returns false and records exactly `fuel` queries, `fuel`
sleeps and `fuel` evaluations. -/
theorem check_health_loop_all_false
    (queries : Nat → Except PyError (List InstanceStatus)) (interval : Nat)
    (hq : ∀ k, ∃ l, queries k = Except.ok l ∧
      _is_instance_reachable l = Except.ok false) :
    ∀ fuel status idx, _is_instance_reachable status = Except.ok false →
      (check_health_loop queries interval fuel status idx).1 = Except.ok false ∧
      countQueries (check_health_loop queries interval fuel status idx).2 = fuel ∧
      countSleeps (check_health_loop queries interval fuel status idx).2 = fuel ∧
      countEvals (check_health_loop queries interval fuel status idx).2 = fuel := by
  intro fuel
  induction fuel with
  | zero =>
    intro status idx hs
    simp [check_health_loop]
  | succ fuel ih =>
    intro status idx hs
    obtain ⟨l, hql, hl⟩ := hq idx
    obtain ⟨h1, h2, h3, h4⟩ := ih l (idx + 1) hl
    simp only [check_health_loop, hs, hql]
    exact ⟨h1, by simp [h2], by simp [h3], by simp [h4]⟩

/-- Loop lemma: in every loop trace each sleep is immediately preceded by a
failed evaluation and immediately followed by a query. -/
theorem check_health_loop_sleeps_ok
    (queries : Nat → Except PyError (List InstanceStatus)) (interval : Nat) :
    ∀ fuel status idx,
      sleepsWellPlaced (check_health_loop queries interval fuel status idx).2 = true := by
  intro fuel
  induction fuel with
  | zero =>
    intro status idx
    simp [check_health_loop, sleepsWellPlaced]
  | succ fuel ih =>
    intro status idx
    rcases h1 : _is_instance_reachable status with e | b
    · simp [check_health_loop, h1, sleepsWellPlaced]
    · cases b
      · rcases h2 : queries idx with e2 | next
        · simp [check_health_loop, h1, h2, sleepsWellPlaced]
        · simp only [check_health_loop, h1, h2]
          show sleepsWellPlaced (Event.eval status (Except.ok false) ::
            Event.sleep interval :: Event.query (Except.ok next) ::
            (check_health_loop queries interval fuel next (idx + 1)).2) = true
          rw [show ∀ tr, sleepsWellPlaced (Event.eval status (Except.ok false) ::
            Event.sleep interval :: Event.query (Except.ok next) :: tr) =
            sleepsWellPlaced (Event.query (Except.ok next) :: tr) from fun tr => rfl]
          rw [sleepsWellPlaced_cons_query]
          exact ih next (idx + 1)
      · simp [check_health_loop, h1, sleepsWellPlaced]

/-- Claim C3 (amended): with repeat = N and every queried snapshot
evaluating unreachable, the run returns `ok false` after exactly N+1
queries, N sleeps and only N evaluations — each sleep immediately after a
failed evaluation and immediately before the next query, never trailing —
so the final (N+1st) queried snapshot is never evaluated. -/
theorem check_health_all_false_counts
    (queries : Nat → Except PyError (List InstanceStatus)) (interval : Nat)
    (N : Nat)
    (hq : ∀ k, ∃ l, queries k = Except.ok l ∧
      _is_instance_reachable l = Except.ok false) :
    (check_health queries interval (N : Int)).1 = Except.ok false ∧
    countQueries (check_health queries interval (N : Int)).2 = N + 1 ∧
    countSleeps (check_health queries interval (N : Int)).2 = N ∧
    countEvals (check_health queries interval (N : Int)).2 = N ∧
    sleepsWellPlaced (check_health queries interval (N : Int)).2 = true := by
  obtain ⟨l0, hq0, hl0⟩ := hq 0
  have hN : (N : Int).toNat = N := by omega
  have hcounts := check_health_loop_all_false queries interval hq N l0 1 hl0
  have hsleeps := check_health_loop_sleeps_ok queries interval N l0 1
  simp only [check_health, hq0, hN]
  obtain ⟨h1, h2, h3, h4⟩ := hcounts
  refine ⟨h1, ?_, ?_, ?_, ?_⟩
  · simp [h2]
  · simp [h3]
  · simp [h4]
  · rw [sleepsWellPlaced_cons_query]
    exact hsleeps

/-- Claim C3 witness: the amended statement at repeat = 2 with the concrete
pending-then-stopped query sequence (all unreachable): 3 queries, 2 sleeps,
2 evaluations, result false, sleeps well placed. -/
theorem check_health_all_false_counts_witness :
    (check_health pendingThenStopped 5 ((2 : Nat) : Int)).1 = Except.ok false ∧
    countQueries (check_health pendingThenStopped 5 ((2 : Nat) : Int)).2 = 2 + 1 ∧
    countSleeps (check_health pendingThenStopped 5 ((2 : Nat) : Int)).2 = 2 ∧
    countEvals (check_health pendingThenStopped 5 ((2 : Nat) : Int)).2 = 2 ∧
    sleepsWellPlaced (check_health pendingThenStopped 5 ((2 : Nat) : Int)).2 = true :=
  check_health_all_false_counts pendingThenStopped 5 2 (fun k => by
    rcases k with _ | k
    · exact ⟨[pendingSnapshot], rfl, by decide⟩
    · exact ⟨[stoppedSnapshot], by simp [pendingThenStopped], by decide⟩)

/-- Loop lemma: the loop records at most `fuel` queries. -/
theorem check_health_loop_countQueries_le
    (queries : Nat → Except PyError (List InstanceStatus)) (interval : Nat) :
    ∀ fuel status idx,
      countQueries (check_health_loop queries interval fuel status idx).2 ≤ fuel := by
  intro fuel
  induction fuel with
  | zero =>
    intro status idx
    simp [check_health_loop]
  | succ fuel ih =>
    intro status idx
    rcases h1 : _is_instance_reachable status with e | b
    · simp [check_health_loop, h1]
    · cases b
      · rcases h2 : queries idx with e2 | next
        · simp [check_health_loop, h1, h2]
        · simp only [check_health_loop, h1, h2]
          have := ih next (idx + 1)
          simp only [countQueries_cons_eval, countQueries_cons_sleep,
            countQueries_cons_query]
          omega
      · simp [check_health_loop, h1]

/-- Claim C8: every run with a non-negative repeat that terminates with a
boolean outcome performs between 1 and repeat + 1 status queries; in
particular the initial query always happens. -/
theorem query_count_bounds
    (queries : Nat → Except PyError (List InstanceStatus)) (interval : Nat)
    (rep : Int) (b : Bool)
    (hrep : 0 ≤ rep)
    (hres : (check_health queries interval rep).1 = Except.ok b) :
    1 ≤ countQueries (check_health queries interval rep).2 ∧
    countQueries (check_health queries interval rep).2 ≤ rep.toNat + 1 := by
  rcases h0 : queries 0 with e | status
  · simp [check_health, h0] at hres
  · have := check_health_loop_countQueries_le queries interval rep.toNat status 1
    simp only [check_health, h0, countQueries_cons_query]
    omega

/-- Claim C8 witness: the bounds at the concrete healthy-query run with
repeat = 0, which terminates normally with outcome false after exactly one
query. -/
theorem query_count_bounds_witness :
    1 ≤ countQueries (check_health healthyQueries 10 0).2 ∧
    countQueries (check_health healthyQueries 10 0).2 = 1 := by
  have h := query_count_bounds healthyQueries 10 0 false (by decide) (by decide)
  exact ⟨h.1, by decide⟩

/-- Claim C10: for every repeat value at most 0 — including negative
values — the run performs exactly one query, records no evaluation and no
sleep, and returns false unconditionally, whatever the queried snapshot
contains. -/
theorem nonpositive_repeat_returns_false
    (queries : Nat → Except PyError (List InstanceStatus)) (interval : Nat)
    (rep : Int) (l : List InstanceStatus)
    (hrep : rep ≤ 0) (hq : queries 0 = Except.ok l) :
    check_health queries interval rep =
      (Except.ok false, [Event.query (Except.ok l)]) := by
  have hN : rep.toNat = 0 := by omega
  simp [check_health, hq, hN, check_health_loop]

/-- Claim C10 witness: at repeat = -1 with the healthy query sequence, the
run still makes exactly one query and returns false even though the queried
snapshot is fully reachable. -/
theorem nonpositive_repeat_returns_false_witness :
    check_health healthyQueries 10 (-1) =
      (Except.ok false, [Event.query (Except.ok [healthySnapshot])]) :=
  nonpositive_repeat_returns_false healthyQueries 10 (-1) [healthySnapshot]
    (by decide) rfl

end EC2HealthCheck
